import Mathlib

/-!
Shallow embedding of `model/dataset.py` from the `neural-audio-fp` repository.

The module builds dataset "policies" (calls to the external batch generator
`genUnbalSequence`) for the train / validation / test-dummy-db /
test-query-db / custom partitions.  Filesystem interaction
(`glob.glob(root + "**/*.wav", recursive=True)` followed by `sorted`) is
modelled by an explicit listing of the filesystem (a `List String` of file
paths, in arbitrary order) that is filtered by root prefix and `.wav` suffix
and then sorted lexicographically.  The mutable attributes of the Python
`Dataset` object are modelled by an explicit `DatasetState` record threaded
through the methods; Python exceptions are modelled by `Except PyError`.
-/

namespace NeuralAudioFP

/-- Lexicographic order on strings, via the lexicographic order on their
character lists.  Python's `sorted` on strings sorts by code points, which is
exactly lexicographic comparison of the character lists. -/
def strLe (a b : String) : Prop :=
  a.data ≤ b.data

instance : DecidableRel strLe := fun a b =>
  inferInstanceAs (Decidable (a.data ≤ b.data))

instance : IsTotal String strLe :=
  ⟨fun a b => le_total a.data b.data⟩

instance : IsTrans String strLe :=
  ⟨fun _ _ _ hab hbc => le_trans hab hbc⟩

/-- Python's `sorted` on a list of strings. -/
def strSort (l : List String) : List String :=
  List.insertionSort strLe l

theorem strSort_sorted (l : List String) : List.Sorted strLe (strSort l) :=
  List.sorted_insertionSort strLe l

/-- Model of `glob.glob(root + "**/*.wav", recursive=True)`: the files of the
filesystem listing that lie under the prefix `root` and end in `.wav`. -/
def globWav (fsys : List String) (root : String) : List String :=
  fsys.filter fun p => root.data.isPrefixOf p.data && ".wav".data.isSuffixOf p.data

/-- Model of `sorted(glob.glob(root + "**/*.wav", recursive=True))`. -/
def scanSorted (fsys : List String) (root : String) : List String :=
  strSort (globWav fsys root)

theorem scanSorted_sorted (fsys : List String) (root : String) :
    List.Sorted strLe (scanSorted fsys root) :=
  strSort_sorted _

/-- Python `str.isnumeric`, restricted to ASCII digits (the data-selection
tags of this repository are ASCII). -/
def pyIsNumeric (s : String) : Bool :=
  !s.data.isEmpty && s.data.all Char.isDigit

/-- The configuration dictionary `cfg`, with the keys read by
`Dataset.__init__`.  The model timing parameters (`DUR`, `HOP`, `FS`) and the
SNR ranges are pass-through values never interpreted by `dataset.py`; they
are modelled as `Nat` / `List Int`. -/
structure Config where
  source_root_dir : String
  mix_root_dir : String
  bg_root_dir : String
  ir_root_dir : String
  speech_root_dir : String
  datasel_train : String
  datasel_test_dummy_db : String
  datasel_test_query_db : String
  tr_batch_sz : Nat
  tr_n_anchor : Nat
  val_batch_sz : Nat
  val_n_anchor : Nat
  ts_batch_sz : Nat
  dur : Nat
  hop : Nat
  fs : Nat
  tr_snr : List Int
  ts_snr : List Int
  val_snr : List Int
  tr_use_bg_aug : Bool
  ts_use_bg_aug : Bool
  val_use_bg_aug : Bool
  tr_use_ir_aug : Bool
  ts_use_ir_aug : Bool
  val_use_ir_aug : Bool
  tr_use_speech_aug : Bool
  ts_use_speech_aug : Bool
  val_use_speech_aug : Bool
deriving Repr, DecidableEq

/-- One augmentation parameter of a `genUnbalSequence` call, e.g.
`bg_mix_parameter=[enabled, fps, snr]`.  A file-path list that is Python
`None`, and a list entry that is simply not present (as in
`speech_mix_parameter=[False]`), are both modelled as `none`. -/
structure AugParam where
  enabled : Bool
  fps : Option (List String)
  snr : Option (List Int)
deriving Repr, DecidableEq

/-- A constructed `genUnbalSequence` object, recorded as the argument tuple
the selector passes to it (the "partition policy").  Field defaults follow
the generator's parameter contract (its own source file is external to this
module): `reduce_items_p` defaults to `0`, `reduce_batch_first_half` to
`false`, `drop_the_last_non_full_batch` to `true`, and each omitted
augmentation parameter to disabled-with-nothing. -/
structure GenUnbalSequence where
  fns_source_event_list : List String
  fns_mix_event_list : Option (List String) := none
  bsz : Nat
  n_anchor : Nat
  duration : Nat
  hop : Nat
  fs : Nat
  shuffle : Bool
  random_offset_anchor : Bool
  bg_mix_parameter : AugParam := ⟨false, none, none⟩
  ir_mix_parameter : AugParam := ⟨false, none, none⟩
  speech_mix_parameter : AugParam := ⟨false, none, none⟩
  reduce_items_p : Nat := 0
  reduce_batch_first_half : Bool := false
  drop_the_last_non_full_batch : Bool := true
deriving Repr, DecidableEq

/-- The mutable file-path-list attributes of a `Dataset` object
(`dataset.py` lines 77-87).  `none` is Python `None`. -/
structure DatasetState where
  tr_bg_fps : Option (List String)
  ts_bg_fps : Option (List String)
  val_bg_fps : Option (List String)
  tr_ir_fps : Option (List String)
  ts_ir_fps : Option (List String)
  val_ir_fps : Option (List String)
  tr_speech_fps : Option (List String)
  ts_speech_fps : Option (List String)
  val_speech_fps : Option (List String)
  tr_source_fps : Option (List String)
  val_source_fps : Option (List String)
  tr_mix_fps : Option (List String)
  val_mix_fps : Option (List String)
  ts_dummy_db_source_fps : Option (List String)
  ts_query_icassp_fps : Option (List String)
  ts_db_icassp_fps : Option (List String)
  ts_query_db_unseen_fps : Option (List String)
deriving Repr, DecidableEq

/-- The attribute state right after `Dataset.__init__` lines 77-87, before
`__set_augmentation_fps` runs: every file-path list is `None`. -/
def emptyState : DatasetState :=
  ⟨none, none, none, none, none, none, none, none, none,
   none, none, none, none, none, none, none, none⟩

/-- Python exceptions raised by `dataset.py`. -/
inductive PyError where
  | notImplementedError (tag : String)
  | attributeError (name : String)
  | fileNotFoundError (path : String)
deriving Repr, DecidableEq

instance {ε α : Type} [DecidableEq ε] [DecidableEq α] :
    DecidableEq (Except ε α) := fun x y =>
  match x, y with
  | Except.ok a, Except.ok b =>
      if h : a = b then Decidable.isTrue (by rw [h]) else Decidable.isFalse (by simp [h])
  | Except.ok _, Except.error _ => Decidable.isFalse (by simp)
  | Except.error _, Except.ok _ => Decidable.isFalse (by simp)
  | Except.error e, Except.error f =>
      if h : e = f then Decidable.isTrue (by rw [h]) else Decidable.isFalse (by simp [h])

/-- Identifies one of the nine `sorted(glob.glob(...))` call sites of
`Dataset.__set_augmentation_fps` (lines 98-138), by the attribute it
populates. -/
inductive ScanKey where
  | bgTr
  | bgTs
  | bgVal
  | irTr
  | irTs
  | irVal
  | speechTrain
  | speechTest
  | speechDev
deriving Repr, DecidableEq

/-- The nine scan sites of `Dataset.__set_augmentation_fps` in source order,
each paired with the glob-root it would scan. -/
def scanSites (cfg : Config) : List (ScanKey × String) :=
  [(ScanKey.bgTr, cfg.bg_root_dir ++ "tr/"),
   (ScanKey.bgTs, cfg.bg_root_dir ++ "ts/"),
   (ScanKey.bgVal, cfg.bg_root_dir ++ "tr/"),
   (ScanKey.irTr, cfg.ir_root_dir ++ "tr/"),
   (ScanKey.irTs, cfg.ir_root_dir ++ "ts/"),
   (ScanKey.irVal, cfg.ir_root_dir ++ "tr/"),
   (ScanKey.speechTrain, cfg.speech_root_dir ++ "train/"),
   (ScanKey.speechTest, cfg.speech_root_dir ++ "test/"),
   (ScanKey.speechDev, cfg.speech_root_dir ++ "dev/")]

/-- The toggle guarding each scan site in the source.  Eight of the nine
scans sit under an `if self.<toggle>:`; the test-speech scan (line 130) has
no guard, recorded here as `true`. -/
def keyEnabled (cfg : Config) : ScanKey → Bool
  | ScanKey.bgTr => cfg.tr_use_bg_aug
  | ScanKey.bgTs => cfg.ts_use_bg_aug
  | ScanKey.bgVal => cfg.val_use_bg_aug
  | ScanKey.irTr => cfg.tr_use_ir_aug
  | ScanKey.irTs => cfg.ts_use_ir_aug
  | ScanKey.irVal => cfg.val_use_ir_aug
  | ScanKey.speechTrain => cfg.tr_use_speech_aug
  | ScanKey.speechTest => true
  | ScanKey.speechDev => cfg.val_use_speech_aug

/-- The directory scans `Dataset.__set_augmentation_fps` actually performs,
in source order: a site's scan is executed exactly when its guard holds. -/
def augScans (cfg : Config) : List (ScanKey × String) :=
  (scanSites cfg).filter fun s => keyEnabled cfg s.1

/-- `Dataset.__set_augmentation_fps` (lines 89-139): populates the
augmentation file-path lists whose toggles are enabled, plus — with no guard
in the source — the test-speech list. -/
def setAugmentationFps (cfg : Config) (fsys : List String) (st : DatasetState) : DatasetState :=
  { st with
    tr_bg_fps := if cfg.tr_use_bg_aug then some (scanSorted fsys (cfg.bg_root_dir ++ "tr/")) else st.tr_bg_fps
    ts_bg_fps := if cfg.ts_use_bg_aug then some (scanSorted fsys (cfg.bg_root_dir ++ "ts/")) else st.ts_bg_fps
    val_bg_fps := if cfg.val_use_bg_aug then some (scanSorted fsys (cfg.bg_root_dir ++ "tr/")) else st.val_bg_fps
    tr_ir_fps := if cfg.tr_use_ir_aug then some (scanSorted fsys (cfg.ir_root_dir ++ "tr/")) else st.tr_ir_fps
    ts_ir_fps := if cfg.ts_use_ir_aug then some (scanSorted fsys (cfg.ir_root_dir ++ "ts/")) else st.ts_ir_fps
    val_ir_fps := if cfg.val_use_ir_aug then some (scanSorted fsys (cfg.ir_root_dir ++ "tr/")) else st.val_ir_fps
    tr_speech_fps := if cfg.tr_use_speech_aug then some (scanSorted fsys (cfg.speech_root_dir ++ "train/")) else st.tr_speech_fps
    ts_speech_fps := some (scanSorted fsys (cfg.speech_root_dir ++ "test/"))
    val_speech_fps := if cfg.val_use_speech_aug then some (scanSorted fsys (cfg.speech_root_dir ++ "dev/")) else st.val_speech_fps }

/-- `Dataset.__init__(cfg)`: all file-path attributes start as `None`
(lines 77-87), then `__set_augmentation_fps` runs (line 80). -/
def datasetInit (cfg : Config) (fsys : List String) : DatasetState :=
  setAugmentationFps cfg fsys emptyState

/-- The "no augmentation, anchor = batch, keep last partial batch" policy
shape shared verbatim by the `genUnbalSequence` calls of
`get_test_dummy_db_ds`, both `unseen_icassp` policies, the `unseen_syn`
database policy, and `get_custom_db_ds`. -/
def noAugPolicy (cfg : Config) (fps : List String) : GenUnbalSequence :=
  { fns_source_event_list := fps
    bsz := cfg.ts_batch_sz
    n_anchor := cfg.ts_batch_sz
    duration := cfg.dur
    hop := cfg.hop
    fs := cfg.fs
    shuffle := false
    random_offset_anchor := false
    drop_the_last_non_full_batch := false }

/-- `Dataset.get_train_ds(reduce_items_p)` (lines 141-174).  The source
computes an unused local `_prefix` in the tag dispatch; only the dispatch
itself (raise on unrecognized tag) is observable and is kept here. -/
def get_train_ds (cfg : Config) (fsys : List String) (st : DatasetState)
    (reduce_items_p : Nat) : Except PyError GenUnbalSequence × DatasetState :=
  if cfg.datasel_train = "10k_icassp" ∨ cfg.datasel_train = "audible" then
    let tr_source_fps := scanSorted fsys cfg.source_root_dir
    let tr_mix_fps := scanSorted fsys cfg.mix_root_dir
    (Except.ok
      { fns_source_event_list := tr_source_fps
        fns_mix_event_list := some tr_mix_fps
        bsz := cfg.tr_batch_sz
        n_anchor := cfg.tr_n_anchor
        duration := cfg.dur
        hop := cfg.hop
        fs := cfg.fs
        shuffle := true
        random_offset_anchor := true
        bg_mix_parameter := ⟨cfg.tr_use_bg_aug, st.tr_bg_fps, some cfg.tr_snr⟩
        ir_mix_parameter := ⟨cfg.tr_use_ir_aug, st.tr_ir_fps, none⟩
        speech_mix_parameter := ⟨cfg.tr_use_speech_aug, st.tr_speech_fps, some cfg.tr_snr⟩
        reduce_items_p := reduce_items_p },
     { st with tr_source_fps := some tr_source_fps, tr_mix_fps := some tr_mix_fps })
  else
    (Except.error (PyError.notImplementedError cfg.datasel_train), st)

/-- `Dataset.get_val_ds(max_song)` (lines 176-210). -/
def get_val_ds (cfg : Config) (fsys : List String) (st : DatasetState)
    (max_song : Nat) : GenUnbalSequence × DatasetState :=
  let val_source_fps :=
    (scanSorted fsys (cfg.source_root_dir ++ "val-query-db-500-30s/")).take max_song
  ({ fns_source_event_list := val_source_fps
     bsz := cfg.val_batch_sz
     n_anchor := cfg.val_n_anchor
     duration := cfg.dur
     hop := cfg.hop
     fs := cfg.fs
     shuffle := false
     random_offset_anchor := false
     bg_mix_parameter := ⟨cfg.val_use_bg_aug, st.val_bg_fps, some cfg.val_snr⟩
     ir_mix_parameter := ⟨cfg.val_use_ir_aug, st.val_ir_fps, none⟩
     speech_mix_parameter := ⟨cfg.val_use_speech_aug, st.val_speech_fps, some cfg.val_snr⟩ },
   { st with val_source_fps := some val_source_fps })

/-- `Dataset.get_test_dummy_db_ds()` (lines 212-250).  The full sorted scan
is assigned to `self.ts_dummy_db_source_fps` (line 221) before the
data-selection tag is inspected.  On a numeric tag, line 233 reads
`self.datasel_test_db` — an attribute never assigned anywhere in the class —
so that branch raises `AttributeError` at run time. -/
def get_test_dummy_db_ds (cfg : Config) (fsys : List String) (st : DatasetState) :
    Except PyError GenUnbalSequence × DatasetState :=
  let fps0 := scanSorted fsys (cfg.source_root_dir ++ "test-dummy-db-100k-full/")
  let st1 := { st with ts_dummy_db_source_fps := some fps0 }
  if cfg.datasel_test_dummy_db = "10k_full" ∨ cfg.datasel_test_dummy_db = "10k_30s" then
    let fps := fps0.take 10000
    (Except.ok (noAugPolicy cfg fps), { st1 with ts_dummy_db_source_fps := some fps })
  else if cfg.datasel_test_dummy_db = "100k_full_icassp" then
    (Except.ok (noAugPolicy cfg fps0), st1)
  else if pyIsNumeric cfg.datasel_test_dummy_db then
    (Except.error (PyError.attributeError "datasel_test_db"), st1)
  else
    (Except.error (PyError.notImplementedError cfg.datasel_test_dummy_db), st1)

/-- `Dataset.get_test_query_db_ds(datasel=None)` (lines 252-361).  A truthy
`datasel` argument executes `self.datasel` (line 267), an attribute never
assigned anywhere in the class, raising `AttributeError` before anything is
resolved.  `datasel` is modelled as `Option String`, truthy when `some` of a
non-empty string. -/
def get_test_query_db_ds (cfg : Config) (fsys : List String) (st : DatasetState)
    (datasel : Option String) :
    Except PyError (GenUnbalSequence × GenUnbalSequence) × DatasetState :=
  if (datasel.map (fun d => !d.data.isEmpty)).getD false then
    (Except.error (PyError.attributeError "datasel"), st)
  else if cfg.datasel_test_query_db = "unseen_icassp" then
    let qfps := scanSorted fsys (cfg.source_root_dir ++ "test-query-db-500-30s/" ++ "query/")
    let dbfps := scanSorted fsys (cfg.source_root_dir ++ "test-query-db-500-30s/" ++ "db/")
    (Except.ok (noAugPolicy cfg qfps, noAugPolicy cfg dbfps),
     { st with ts_query_icassp_fps := some qfps, ts_db_icassp_fps := some dbfps })
  else if cfg.datasel_test_query_db = "unseen_syn" then
    let pool := scanSorted fsys (cfg.source_root_dir ++ "val-query-db-500-30s/" ++ "db/")
    let ds_query : GenUnbalSequence :=
      { fns_source_event_list := pool
        bsz := cfg.ts_batch_sz * 2
        n_anchor := cfg.ts_batch_sz
        duration := cfg.dur
        hop := cfg.hop
        fs := cfg.fs
        shuffle := false
        random_offset_anchor := false
        bg_mix_parameter := ⟨cfg.ts_use_bg_aug, st.ts_bg_fps, some cfg.ts_snr⟩
        ir_mix_parameter := ⟨cfg.ts_use_ir_aug, st.ts_ir_fps, none⟩
        speech_mix_parameter := ⟨false, none, none⟩
        reduce_batch_first_half := true
        drop_the_last_non_full_batch := false }
    (Except.ok (ds_query, noAugPolicy cfg pool),
     { st with ts_query_db_unseen_fps := some pool })
  else
    (Except.error (PyError.notImplementedError cfg.datasel_test_query_db), st)

/-- `Dataset.get_custom_db_ds(source, isdir)` (lines 363-386).  In manifest
mode the file contents are modelled by an association list from path to the
list of lines (each line already stripped of its trailing newline, matching
`l.split("\n")[0]`); a missing manifest makes `open` raise
`FileNotFoundError`.  Note the source never checks that the directory exists
or that the resolved list is non-empty. -/
def get_custom_db_ds (cfg : Config) (fsys : List String)
    (manifests : List (String × List String)) (st : DatasetState)
    (source : String) (isdir : Bool) :
    Except PyError GenUnbalSequence × DatasetState :=
  if isdir then
    (Except.ok (noAugPolicy cfg (scanSorted fsys (source ++ "/"))), st)
  else
    match manifests.lookup source with
    | none => (Except.error (PyError.fileNotFoundError source), st)
    | some lines => (Except.ok (noAugPolicy cfg (strSort lines)), st)

/-! ### Branch lemmas: one per arm of each resolver's tag dispatch -/

theorem get_train_ds_ok (cfg : Config) (fsys : List String) (st : DatasetState) (p : Nat)
    (h : cfg.datasel_train = "10k_icassp" ∨ cfg.datasel_train = "audible") :
    get_train_ds cfg fsys st p =
      (Except.ok
        { fns_source_event_list := scanSorted fsys cfg.source_root_dir
          fns_mix_event_list := some (scanSorted fsys cfg.mix_root_dir)
          bsz := cfg.tr_batch_sz
          n_anchor := cfg.tr_n_anchor
          duration := cfg.dur
          hop := cfg.hop
          fs := cfg.fs
          shuffle := true
          random_offset_anchor := true
          bg_mix_parameter := ⟨cfg.tr_use_bg_aug, st.tr_bg_fps, some cfg.tr_snr⟩
          ir_mix_parameter := ⟨cfg.tr_use_ir_aug, st.tr_ir_fps, none⟩
          speech_mix_parameter := ⟨cfg.tr_use_speech_aug, st.tr_speech_fps, some cfg.tr_snr⟩
          reduce_items_p := p },
       { st with tr_source_fps := some (scanSorted fsys cfg.source_root_dir)
                 tr_mix_fps := some (scanSorted fsys cfg.mix_root_dir) }) := by
  unfold get_train_ds
  rw [if_pos h]

theorem get_train_ds_err (cfg : Config) (fsys : List String) (st : DatasetState) (p : Nat)
    (h1 : cfg.datasel_train ≠ "10k_icassp") (h2 : cfg.datasel_train ≠ "audible") :
    get_train_ds cfg fsys st p =
      (Except.error (PyError.notImplementedError cfg.datasel_train), st) := by
  unfold get_train_ds
  rw [if_neg (not_or.mpr ⟨h1, h2⟩)]

theorem get_test_dummy_db_ds_take (cfg : Config) (fsys : List String) (st : DatasetState)
    (h : cfg.datasel_test_dummy_db = "10k_full" ∨ cfg.datasel_test_dummy_db = "10k_30s") :
    get_test_dummy_db_ds cfg fsys st =
      (Except.ok (noAugPolicy cfg
          ((scanSorted fsys (cfg.source_root_dir ++ "test-dummy-db-100k-full/")).take 10000)),
       { st with ts_dummy_db_source_fps := some ((scanSorted fsys
           (cfg.source_root_dir ++ "test-dummy-db-100k-full/")).take 10000) }) := by
  unfold get_test_dummy_db_ds
  rw [if_pos h]

theorem get_test_dummy_db_ds_full (cfg : Config) (fsys : List String) (st : DatasetState)
    (h : cfg.datasel_test_dummy_db = "100k_full_icassp") :
    get_test_dummy_db_ds cfg fsys st =
      (Except.ok (noAugPolicy cfg
          (scanSorted fsys (cfg.source_root_dir ++ "test-dummy-db-100k-full/"))),
       { st with ts_dummy_db_source_fps := some (scanSorted fsys
           (cfg.source_root_dir ++ "test-dummy-db-100k-full/")) }) := by
  unfold get_test_dummy_db_ds
  rw [if_neg (by rw [h]; decide), if_pos h]

theorem get_test_dummy_db_ds_numeric (cfg : Config) (fsys : List String) (st : DatasetState)
    (h1 : cfg.datasel_test_dummy_db ≠ "10k_full") (h2 : cfg.datasel_test_dummy_db ≠ "10k_30s")
    (h3 : cfg.datasel_test_dummy_db ≠ "100k_full_icassp")
    (h4 : pyIsNumeric cfg.datasel_test_dummy_db = true) :
    get_test_dummy_db_ds cfg fsys st =
      (Except.error (PyError.attributeError "datasel_test_db"),
       { st with ts_dummy_db_source_fps := some (scanSorted fsys
           (cfg.source_root_dir ++ "test-dummy-db-100k-full/")) }) := by
  unfold get_test_dummy_db_ds
  rw [if_neg (not_or.mpr ⟨h1, h2⟩), if_neg h3, if_pos h4]

theorem get_test_dummy_db_ds_err (cfg : Config) (fsys : List String) (st : DatasetState)
    (h1 : cfg.datasel_test_dummy_db ≠ "10k_full") (h2 : cfg.datasel_test_dummy_db ≠ "10k_30s")
    (h3 : cfg.datasel_test_dummy_db ≠ "100k_full_icassp")
    (h4 : pyIsNumeric cfg.datasel_test_dummy_db = false) :
    get_test_dummy_db_ds cfg fsys st =
      (Except.error (PyError.notImplementedError cfg.datasel_test_dummy_db),
       { st with ts_dummy_db_source_fps := some (scanSorted fsys
           (cfg.source_root_dir ++ "test-dummy-db-100k-full/")) }) := by
  unfold get_test_dummy_db_ds
  rw [if_neg (not_or.mpr ⟨h1, h2⟩), if_neg h3, if_neg (by rw [h4]; decide)]

theorem get_test_query_db_ds_truthy (cfg : Config) (fsys : List String) (st : DatasetState)
    (d : String) (h : d.data.isEmpty = false) :
    get_test_query_db_ds cfg fsys st (some d) =
      (Except.error (PyError.attributeError "datasel"), st) := by
  unfold get_test_query_db_ds
  rw [if_pos (by simp [h])]

theorem get_test_query_db_ds_icassp (cfg : Config) (fsys : List String) (st : DatasetState)
    (h : cfg.datasel_test_query_db = "unseen_icassp") :
    get_test_query_db_ds cfg fsys st none =
      (Except.ok
        (noAugPolicy cfg (scanSorted fsys (cfg.source_root_dir ++ "test-query-db-500-30s/" ++ "query/")),
         noAugPolicy cfg (scanSorted fsys (cfg.source_root_dir ++ "test-query-db-500-30s/" ++ "db/"))),
       { st with
           ts_query_icassp_fps := some (scanSorted fsys
             (cfg.source_root_dir ++ "test-query-db-500-30s/" ++ "query/"))
           ts_db_icassp_fps := some (scanSorted fsys
             (cfg.source_root_dir ++ "test-query-db-500-30s/" ++ "db/")) }) := by
  unfold get_test_query_db_ds
  rw [if_neg (by simp), if_pos h]

theorem get_test_query_db_ds_syn (cfg : Config) (fsys : List String) (st : DatasetState)
    (h : cfg.datasel_test_query_db = "unseen_syn") :
    get_test_query_db_ds cfg fsys st none =
      (Except.ok
        ({ fns_source_event_list :=
             scanSorted fsys (cfg.source_root_dir ++ "val-query-db-500-30s/" ++ "db/")
           bsz := cfg.ts_batch_sz * 2
           n_anchor := cfg.ts_batch_sz
           duration := cfg.dur
           hop := cfg.hop
           fs := cfg.fs
           shuffle := false
           random_offset_anchor := false
           bg_mix_parameter := ⟨cfg.ts_use_bg_aug, st.ts_bg_fps, some cfg.ts_snr⟩
           ir_mix_parameter := ⟨cfg.ts_use_ir_aug, st.ts_ir_fps, none⟩
           speech_mix_parameter := ⟨false, none, none⟩
           reduce_batch_first_half := true
           drop_the_last_non_full_batch := false },
         noAugPolicy cfg (scanSorted fsys (cfg.source_root_dir ++ "val-query-db-500-30s/" ++ "db/"))),
       { st with ts_query_db_unseen_fps := some (scanSorted fsys
           (cfg.source_root_dir ++ "val-query-db-500-30s/" ++ "db/")) }) := by
  unfold get_test_query_db_ds
  rw [if_neg (by simp), if_neg (by rw [h]; decide), if_pos h]

theorem get_test_query_db_ds_err (cfg : Config) (fsys : List String) (st : DatasetState)
    (h1 : cfg.datasel_test_query_db ≠ "unseen_icassp")
    (h2 : cfg.datasel_test_query_db ≠ "unseen_syn") :
    get_test_query_db_ds cfg fsys st none =
      (Except.error (PyError.notImplementedError cfg.datasel_test_query_db), st) := by
  unfold get_test_query_db_ds
  rw [if_neg (by simp), if_neg h1, if_neg h2]

theorem get_custom_db_ds_dir (cfg : Config) (fsys : List String)
    (manifests : List (String × List String)) (st : DatasetState) (source : String) :
    get_custom_db_ds cfg fsys manifests st source true =
      (Except.ok (noAugPolicy cfg (scanSorted fsys (source ++ "/"))), st) := by
  unfold get_custom_db_ds
  rw [if_pos rfl]

theorem get_custom_db_ds_manifest (cfg : Config) (fsys : List String)
    (manifests : List (String × List String)) (st : DatasetState) (source : String)
    (lines : List String) (h : manifests.lookup source = some lines) :
    get_custom_db_ds cfg fsys manifests st source false =
      (Except.ok (noAugPolicy cfg (strSort lines)), st) := by
  unfold get_custom_db_ds
  rw [if_neg (by simp), h]

theorem get_custom_db_ds_missing (cfg : Config) (fsys : List String)
    (manifests : List (String × List String)) (st : DatasetState) (source : String)
    (h : manifests.lookup source = none) :
    get_custom_db_ds cfg fsys manifests st source false =
      (Except.error (PyError.fileNotFoundError source), st) := by
  unfold get_custom_db_ds
  rw [if_neg (by simp), h]

/-! ### Concrete fixtures for witnesses and counterexamples -/

/-- A small but fully populated configuration used for concrete evaluation. -/
def baseCfg : Config :=
  { source_root_dir := "src/"
    mix_root_dir := "mix/"
    bg_root_dir := "bg/"
    ir_root_dir := "ir/"
    speech_root_dir := "sp/"
    datasel_train := "audible"
    datasel_test_dummy_db := "10k_full"
    datasel_test_query_db := "unseen_syn"
    tr_batch_sz := 40
    tr_n_anchor := 8
    val_batch_sz := 40
    val_n_anchor := 8
    ts_batch_sz := 20
    dur := 1
    hop := 1
    fs := 8000
    tr_snr := [0, 10]
    ts_snr := [0, 10]
    val_snr := [0, 10]
    tr_use_bg_aug := true
    ts_use_bg_aug := true
    val_use_bg_aug := true
    tr_use_ir_aug := true
    ts_use_ir_aug := true
    val_use_ir_aug := true
    tr_use_speech_aug := true
    ts_use_speech_aug := false
    val_use_speech_aug := true }

/-- A small filesystem listing (deliberately unsorted) covering every
directory the resolvers scan under `baseCfg`. -/
def demoFs : List String :=
  ["src/test-dummy-db-100k-full/b.wav",
   "src/test-dummy-db-100k-full/a.wav",
   "src/val-query-db-500-30s/c.wav",
   "src/val-query-db-500-30s/a.wav",
   "src/val-query-db-500-30s/b.wav",
   "src/val-query-db-500-30s/db/x.wav",
   "src/test-query-db-500-30s/query/q.wav",
   "src/test-query-db-500-30s/db/d.wav",
   "mix/m.wav",
   "bg/tr/a.wav",
   "bg/ts/a.wav",
   "ir/tr/a.wav",
   "ir/ts/a.wav",
   "sp/train/a.wav",
   "sp/test/a.wav",
   "sp/dev/a.wav"]

/-! ### Claims -/

/-- `baseCfg` with a numeric-string dummy-db data-selection tag. -/
def cfgNumericTag : Config :=
  { baseCfg with datasel_test_dummy_db := "5000" }

/-- C1: the spec says a numeric-string dummy-db tag makes
`get_test_dummy_db_ds` return the sorted scan truncated to that literal
count without failing; the code instead reads the never-assigned attribute
`datasel_test_db` (line 233) and raises `AttributeError` on every numeric
tag. -/
theorem C1_numeric_tag_raises_attribute_error :
    (get_test_dummy_db_ds cfgNumericTag demoFs emptyState).1
      = Except.error (PyError.attributeError "datasel_test_db") := by
  rw [get_test_dummy_db_ds_numeric cfgNumericTag demoFs emptyState
    (by decide) (by decide) (by decide) (by decide)]

/-- `baseCfg` with an unrecognized data-selection tag for all three
tag-driven resolvers. -/
def cfgAllBadTags : Config :=
  { baseCfg with
      datasel_train := "broadcast"
      datasel_test_dummy_db := "broadcast"
      datasel_test_query_db := "broadcast" }

/-- C2 counterexample: on an unrecognized dummy-db tag the resolver does
raise the unsupported-selection error, but `ts_dummy_db_source_fps` — `none`
before the call — has been overwritten with the full sorted scan of the
dummy-db pool by the time the error is raised. -/
theorem C2_counterexample :
    (get_test_dummy_db_ds cfgAllBadTags demoFs emptyState).1
        = Except.error (PyError.notImplementedError "broadcast")
    ∧ emptyState.ts_dummy_db_source_fps = none
    ∧ (get_test_dummy_db_ds cfgAllBadTags demoFs emptyState).2.ts_dummy_db_source_fps
        = some ["src/test-dummy-db-100k-full/a.wav", "src/test-dummy-db-100k-full/b.wav"] := by
  refine ⟨by decide, rfl, by decide⟩

/-- C2 (amended): on an unrecognized tag, `get_train_ds` and
`get_test_query_db_ds` raise the unsupported-selection error with the
selector state fully unchanged, and `get_test_dummy_db_ds` raises it too —
but only after overwriting `ts_dummy_db_source_fps` with the full sorted
scan of the dummy-db pool (a partial file-list side effect). -/
theorem C2_unrecognized_tag_effects (cfg : Config) (fsys : List String)
    (st : DatasetState) (p : Nat)
    (h1 : cfg.datasel_train ≠ "10k_icassp") (h2 : cfg.datasel_train ≠ "audible")
    (h3 : cfg.datasel_test_query_db ≠ "unseen_icassp")
    (h4 : cfg.datasel_test_query_db ≠ "unseen_syn")
    (h5 : cfg.datasel_test_dummy_db ≠ "10k_full")
    (h6 : cfg.datasel_test_dummy_db ≠ "10k_30s")
    (h7 : cfg.datasel_test_dummy_db ≠ "100k_full_icassp")
    (h8 : pyIsNumeric cfg.datasel_test_dummy_db = false) :
    get_train_ds cfg fsys st p
        = (Except.error (PyError.notImplementedError cfg.datasel_train), st)
    ∧ get_test_query_db_ds cfg fsys st none
        = (Except.error (PyError.notImplementedError cfg.datasel_test_query_db), st)
    ∧ get_test_dummy_db_ds cfg fsys st
        = (Except.error (PyError.notImplementedError cfg.datasel_test_dummy_db),
           { st with ts_dummy_db_source_fps := some (scanSorted fsys
               (cfg.source_root_dir ++ "test-dummy-db-100k-full/")) }) :=
  ⟨get_train_ds_err cfg fsys st p h1 h2,
   get_test_query_db_ds_err cfg fsys st h3 h4,
   get_test_dummy_db_ds_err cfg fsys st h5 h6 h7 h8⟩

/-- C2 witness: the amended statement applied at a concrete configuration. -/
theorem C2_witness :
    get_train_ds cfgAllBadTags demoFs emptyState 0
      = (Except.error (PyError.notImplementedError "broadcast"), emptyState) :=
  (C2_unrecognized_tag_effects cfgAllBadTags demoFs emptyState 0 (by decide)
    (by decide) (by decide) (by decide) (by decide) (by decide) (by decide)
    (by decide)).1

/-- `baseCfg` with a configured train anchor count larger than the train
batch size. -/
def cfgAnchorGtBatch : Config :=
  { baseCfg with tr_batch_sz := 3, tr_n_anchor := 5 }

/-- C3 counterexample: nothing in the code checks the configured anchor
count against the batch size, so a configuration with `TR_N_ANCHOR` = 5 and
`TR_BATCH_SZ` = 3 yields a train policy whose anchor count exceeds its batch
size. -/
theorem C3_counterexample :
    (get_train_ds cfgAnchorGtBatch demoFs emptyState 0).1.map
        (fun ds => decide (ds.n_anchor ≤ ds.bsz)) = Except.ok false := by
  decide

/-- C3 (amended): the dummy-db, query/database and custom resolvers build
policies with anchor count equal to the batch size (the synthesized query
policy has anchor count equal to half its doubled batch size), so for those
the invariant anchor ≤ batch always holds; the train and validation
resolvers copy the configured anchor count and batch size into the policy
unchecked, so for them the invariant holds only if the configuration
satisfies it. -/
theorem C3_anchor_vs_batch (cfg : Config) (fsys : List String) (st : DatasetState)
    (p m : Nat) (manifests : List (String × List String)) (source : String)
    (isdir : Bool) (datasel : Option String) :
    (∀ ds, (get_test_dummy_db_ds cfg fsys st).1 = Except.ok ds → ds.n_anchor = ds.bsz)
    ∧ (∀ q db, (get_test_query_db_ds cfg fsys st datasel).1 = Except.ok (q, db) →
        q.n_anchor ≤ q.bsz ∧ db.n_anchor = db.bsz)
    ∧ (∀ ds, (get_custom_db_ds cfg fsys manifests st source isdir).1 = Except.ok ds →
        ds.n_anchor = ds.bsz)
    ∧ (∀ ds, (get_train_ds cfg fsys st p).1 = Except.ok ds →
        ds.n_anchor = cfg.tr_n_anchor ∧ ds.bsz = cfg.tr_batch_sz)
    ∧ (get_val_ds cfg fsys st m).1.n_anchor = cfg.val_n_anchor
    ∧ (get_val_ds cfg fsys st m).1.bsz = cfg.val_batch_sz := by
  refine ⟨?_, ?_, ?_, ?_, rfl, rfl⟩
  · intro ds h
    by_cases h12 : cfg.datasel_test_dummy_db = "10k_full" ∨ cfg.datasel_test_dummy_db = "10k_30s"
    · rw [get_test_dummy_db_ds_take cfg fsys st h12] at h
      dsimp only at h
      injection h with h'
      subst h'
      rfl
    · rw [not_or] at h12
      by_cases hfull : cfg.datasel_test_dummy_db = "100k_full_icassp"
      · rw [get_test_dummy_db_ds_full cfg fsys st hfull] at h
        dsimp only at h
        injection h with h'
        subst h'
        rfl
      · by_cases hnum : pyIsNumeric cfg.datasel_test_dummy_db = true
        · rw [get_test_dummy_db_ds_numeric cfg fsys st h12.1 h12.2 hfull hnum] at h
          simp at h
        · rw [get_test_dummy_db_ds_err cfg fsys st h12.1 h12.2 hfull
            (by simpa using hnum)] at h
          simp at h
  · intro q db h
    by_cases htruthy : (datasel.map (fun d => !d.data.isEmpty)).getD false = true
    · unfold get_test_query_db_ds at h
      rw [if_pos htruthy] at h
      simp at h
    · unfold get_test_query_db_ds at h
      rw [if_neg htruthy] at h
      by_cases hic : cfg.datasel_test_query_db = "unseen_icassp"
      · rw [if_pos hic] at h
        dsimp only at h
        injection h with h'
        injection h' with hq hdb
        subst hq
        subst hdb
        exact ⟨le_rfl, rfl⟩
      · rw [if_neg hic] at h
        by_cases hsyn : cfg.datasel_test_query_db = "unseen_syn"
        · rw [if_pos hsyn] at h
          dsimp only at h
          injection h with h'
          injection h' with hq hdb
          subst hq
          subst hdb
          refine ⟨?_, rfl⟩
          show cfg.ts_batch_sz ≤ cfg.ts_batch_sz * 2
          omega
        · rw [if_neg hsyn] at h
          simp at h
  · intro ds h
    cases isdir with
    | true =>
      rw [get_custom_db_ds_dir cfg fsys manifests st source] at h
      dsimp only at h
      injection h with h'
      subst h'
      rfl
    | false =>
      cases hm : manifests.lookup source with
      | none =>
        rw [get_custom_db_ds_missing cfg fsys manifests st source hm] at h
        simp at h
      | some lines =>
        rw [get_custom_db_ds_manifest cfg fsys manifests st source lines hm] at h
        dsimp only at h
        injection h with h'
        subst h'
        rfl
  · intro ds h
    by_cases htag : cfg.datasel_train = "10k_icassp" ∨ cfg.datasel_train = "audible"
    · rw [get_train_ds_ok cfg fsys st p htag] at h
      dsimp only at h
      injection h with h'
      subst h'
      exact ⟨rfl, rfl⟩
    · rw [not_or] at htag
      rw [get_train_ds_err cfg fsys st p htag.1 htag.2] at h
      simp at h

/-- C3 witness: the amended statement applied at a concrete configuration
(the custom resolver on an empty directory). -/
theorem C3_witness :
    (noAugPolicy baseCfg []).n_anchor = (noAugPolicy baseCfg []).bsz :=
  (C3_anchor_vs_batch baseCfg demoFs emptyState 0 0 [] "cust" true none).2.2.1
    (noAugPolicy baseCfg []) (by decide)

theorem datasetInit_tr_bg_fps_none (cfg : Config) (fsys : List String)
    (h : cfg.tr_use_bg_aug = false) : (datasetInit cfg fsys).tr_bg_fps = none := by
  simp [datasetInit, setAugmentationFps, h, emptyState]

theorem datasetInit_tr_ir_fps_none (cfg : Config) (fsys : List String)
    (h : cfg.tr_use_ir_aug = false) : (datasetInit cfg fsys).tr_ir_fps = none := by
  simp [datasetInit, setAugmentationFps, h, emptyState]

theorem datasetInit_tr_speech_fps_none (cfg : Config) (fsys : List String)
    (h : cfg.tr_use_speech_aug = false) : (datasetInit cfg fsys).tr_speech_fps = none := by
  simp [datasetInit, setAugmentationFps, h, emptyState]

theorem datasetInit_val_bg_fps_none (cfg : Config) (fsys : List String)
    (h : cfg.val_use_bg_aug = false) : (datasetInit cfg fsys).val_bg_fps = none := by
  simp [datasetInit, setAugmentationFps, h, emptyState]

theorem datasetInit_val_ir_fps_none (cfg : Config) (fsys : List String)
    (h : cfg.val_use_ir_aug = false) : (datasetInit cfg fsys).val_ir_fps = none := by
  simp [datasetInit, setAugmentationFps, h, emptyState]

theorem datasetInit_val_speech_fps_none (cfg : Config) (fsys : List String)
    (h : cfg.val_use_speech_aug = false) : (datasetInit cfg fsys).val_speech_fps = none := by
  simp [datasetInit, setAugmentationFps, h, emptyState]

theorem datasetInit_ts_bg_fps_none (cfg : Config) (fsys : List String)
    (h : cfg.ts_use_bg_aug = false) : (datasetInit cfg fsys).ts_bg_fps = none := by
  simp [datasetInit, setAugmentationFps, h, emptyState]

theorem datasetInit_ts_ir_fps_none (cfg : Config) (fsys : List String)
    (h : cfg.ts_use_ir_aug = false) : (datasetInit cfg fsys).ts_ir_fps = none := by
  simp [datasetInit, setAugmentationFps, h, emptyState]

/-- `baseCfg` with the train background-noise augmentation toggle disabled. -/
def cfgNoBgAug : Config :=
  { baseCfg with tr_use_bg_aug := false }

/-- C4 counterexample: with the train background toggle disabled, the train
policy's background parameter still carries the configured SNR range
`[0, 10]` — the SNR is not absent, refuting "both parameters are absent". -/
theorem C4_counterexample :
    cfgNoBgAug.tr_use_bg_aug = false
    ∧ (get_train_ds cfgNoBgAug demoFs (datasetInit cfgNoBgAug demoFs) 0).1.map
        (fun ds => ds.bg_mix_parameter.snr) = Except.ok (some [0, 10]) :=
  ⟨rfl, by decide⟩

/-- C4 (amended): when an augmentation toggle is disabled, the corresponding
file-list parameter of the produced policy is indeed `None`, but the SNR
parameter is not always absent: the train and validation policies and the
synthesized-protocol query policy still pass the split's configured SNR
range next to the disabled background/speech toggle.  Impulse-response
parameters never carry an SNR, and the synthesized query's speech parameter
and the database policy's parameters are fully absent. -/
theorem C4_disabled_toggle_params (cfg : Config) (fsys : List String) (p m : Nat) :
    ((cfg.tr_use_bg_aug = false →
      (get_train_ds cfg fsys (datasetInit cfg fsys) p).1.map (fun ds => ds.bg_mix_parameter)
        = (get_train_ds cfg fsys (datasetInit cfg fsys) p).1.map
            (fun _ => AugParam.mk false none (some cfg.tr_snr)))
    ∧ (cfg.tr_use_ir_aug = false →
      (get_train_ds cfg fsys (datasetInit cfg fsys) p).1.map (fun ds => ds.ir_mix_parameter)
        = (get_train_ds cfg fsys (datasetInit cfg fsys) p).1.map
            (fun _ => AugParam.mk false none none))
    ∧ (cfg.tr_use_speech_aug = false →
      (get_train_ds cfg fsys (datasetInit cfg fsys) p).1.map (fun ds => ds.speech_mix_parameter)
        = (get_train_ds cfg fsys (datasetInit cfg fsys) p).1.map
            (fun _ => AugParam.mk false none (some cfg.tr_snr))))
    ∧ ((cfg.val_use_bg_aug = false →
      (get_val_ds cfg fsys (datasetInit cfg fsys) m).1.bg_mix_parameter
        = AugParam.mk false none (some cfg.val_snr))
    ∧ (cfg.val_use_ir_aug = false →
      (get_val_ds cfg fsys (datasetInit cfg fsys) m).1.ir_mix_parameter
        = AugParam.mk false none none)
    ∧ (cfg.val_use_speech_aug = false →
      (get_val_ds cfg fsys (datasetInit cfg fsys) m).1.speech_mix_parameter
        = AugParam.mk false none (some cfg.val_snr)))
    ∧ (cfg.datasel_test_query_db = "unseen_syn" →
      (cfg.ts_use_bg_aug = false →
        (get_test_query_db_ds cfg fsys (datasetInit cfg fsys) none).1.map
            (fun pr => pr.1.bg_mix_parameter)
          = Except.ok (AugParam.mk false none (some cfg.ts_snr)))
      ∧ (cfg.ts_use_ir_aug = false →
        (get_test_query_db_ds cfg fsys (datasetInit cfg fsys) none).1.map
            (fun pr => pr.1.ir_mix_parameter)
          = Except.ok (AugParam.mk false none none))
      ∧ (get_test_query_db_ds cfg fsys (datasetInit cfg fsys) none).1.map
            (fun pr => pr.1.speech_mix_parameter)
          = Except.ok (AugParam.mk false none none)
      ∧ (get_test_query_db_ds cfg fsys (datasetInit cfg fsys) none).1.map
            (fun pr => pr.2.bg_mix_parameter)
          = Except.ok (AugParam.mk false none none)) := by
  refine ⟨⟨?_, ?_, ?_⟩, ⟨?_, ?_, ?_⟩, ?_⟩
  · intro hbg
    by_cases htag : cfg.datasel_train = "10k_icassp" ∨ cfg.datasel_train = "audible"
    · rw [get_train_ds_ok cfg fsys (datasetInit cfg fsys) p htag]
      dsimp only [Except.map]
      rw [hbg, datasetInit_tr_bg_fps_none cfg fsys hbg]
    · rw [not_or] at htag
      rw [get_train_ds_err cfg fsys (datasetInit cfg fsys) p htag.1 htag.2]
      rfl
  · intro hir
    by_cases htag : cfg.datasel_train = "10k_icassp" ∨ cfg.datasel_train = "audible"
    · rw [get_train_ds_ok cfg fsys (datasetInit cfg fsys) p htag]
      dsimp only [Except.map]
      rw [hir, datasetInit_tr_ir_fps_none cfg fsys hir]
    · rw [not_or] at htag
      rw [get_train_ds_err cfg fsys (datasetInit cfg fsys) p htag.1 htag.2]
      rfl
  · intro hsp
    by_cases htag : cfg.datasel_train = "10k_icassp" ∨ cfg.datasel_train = "audible"
    · rw [get_train_ds_ok cfg fsys (datasetInit cfg fsys) p htag]
      dsimp only [Except.map]
      rw [hsp, datasetInit_tr_speech_fps_none cfg fsys hsp]
    · rw [not_or] at htag
      rw [get_train_ds_err cfg fsys (datasetInit cfg fsys) p htag.1 htag.2]
      rfl
  · intro hbg
    show AugParam.mk cfg.val_use_bg_aug (datasetInit cfg fsys).val_bg_fps (some cfg.val_snr)
      = AugParam.mk false none (some cfg.val_snr)
    rw [hbg, datasetInit_val_bg_fps_none cfg fsys hbg]
  · intro hir
    show AugParam.mk cfg.val_use_ir_aug (datasetInit cfg fsys).val_ir_fps none
      = AugParam.mk false none none
    rw [hir, datasetInit_val_ir_fps_none cfg fsys hir]
  · intro hsp
    show AugParam.mk cfg.val_use_speech_aug (datasetInit cfg fsys).val_speech_fps (some cfg.val_snr)
      = AugParam.mk false none (some cfg.val_snr)
    rw [hsp, datasetInit_val_speech_fps_none cfg fsys hsp]
  · intro hsyn
    refine ⟨?_, ?_, ?_, ?_⟩
    · intro hbg
      rw [get_test_query_db_ds_syn cfg fsys (datasetInit cfg fsys) hsyn]
      dsimp only [Except.map]
      rw [hbg, datasetInit_ts_bg_fps_none cfg fsys hbg]
    · intro hir
      rw [get_test_query_db_ds_syn cfg fsys (datasetInit cfg fsys) hsyn]
      dsimp only [Except.map]
      rw [hir, datasetInit_ts_ir_fps_none cfg fsys hir]
    · rw [get_test_query_db_ds_syn cfg fsys (datasetInit cfg fsys) hsyn]
      rfl
    · rw [get_test_query_db_ds_syn cfg fsys (datasetInit cfg fsys) hsyn]
      rfl

/-- C4 witness: the amended statement applied at a concrete configuration
with the train background toggle disabled. -/
theorem C4_witness :
    (get_train_ds cfgNoBgAug demoFs (datasetInit cfgNoBgAug demoFs) 0).1.map
        (fun ds => ds.bg_mix_parameter)
      = (get_train_ds cfgNoBgAug demoFs (datasetInit cfgNoBgAug demoFs) 0).1.map
          (fun _ => AugParam.mk false none (some [0, 10])) :=
  (C4_disabled_toggle_params cfgNoBgAug demoFs 0 0).1.1 rfl

/-- C5: under the synthesized protocol (`unseen_syn`), the query policy's
batch size is exactly double the database policy's, both anchor counts equal
the configured test batch size, the query policy carries the
reduce-first-half flag, and both policies share the same single file pool. -/
theorem C5_syn_protocol (cfg : Config) (fsys : List String) (st : DatasetState)
    (h : cfg.datasel_test_query_db = "unseen_syn") :
    (get_test_query_db_ds cfg fsys st none).1.map (fun pr =>
        ((pr.1.bsz, pr.1.n_anchor, pr.1.reduce_batch_first_half,
          pr.1.fns_source_event_list),
         (pr.2.bsz, pr.2.n_anchor, pr.2.fns_source_event_list)))
      = Except.ok
          ((2 * cfg.ts_batch_sz, cfg.ts_batch_sz, true,
            scanSorted fsys (cfg.source_root_dir ++ "val-query-db-500-30s/" ++ "db/")),
           (cfg.ts_batch_sz, cfg.ts_batch_sz,
            scanSorted fsys (cfg.source_root_dir ++ "val-query-db-500-30s/" ++ "db/"))) := by
  rw [get_test_query_db_ds_syn cfg fsys st h]
  dsimp only [Except.map, noAugPolicy]
  rw [Nat.mul_comm]

/-- C5 witness: the synthesized protocol evaluated on `baseCfg` and the
demo filesystem. -/
theorem C5_witness :
    (get_test_query_db_ds baseCfg demoFs emptyState none).1.map (fun pr =>
        ((pr.1.bsz, pr.1.n_anchor, pr.1.reduce_batch_first_half,
          pr.1.fns_source_event_list),
         (pr.2.bsz, pr.2.n_anchor, pr.2.fns_source_event_list)))
      = Except.ok
          ((40, 20, true, ["src/val-query-db-500-30s/db/x.wav"]),
           (20, 20, ["src/val-query-db-500-30s/db/x.wav"])) :=
  Eq.trans (C5_syn_protocol baseCfg demoFs emptyState rfl) (by decide)

/-- C6 counterexample: in directory mode on a directory with no `.wav` files
(e.g. one that does not exist), `get_custom_db_ds` raises nothing and
returns a policy whose file list is empty — refuting both the
`SourceNotFoundError` claim and "never returns a policy with an empty file
list". -/
theorem C6_counterexample :
    (get_custom_db_ds baseCfg demoFs [] emptyState "missingdir" true).1.map
        (fun ds => ds.fns_source_event_list) = Except.ok [] := by
  decide

/-- C6 (amended): `get_custom_db_ds` fails only when the manifest file
cannot be opened (non-directory mode, `FileNotFoundError`); in directory
mode it never fails — a nonexistent or empty directory yields a policy with
an empty file list — and a readable manifest always yields a policy with its
sorted lines, empty or not. -/
theorem C6_custom_source_errors (cfg : Config) (fsys : List String)
    (manifests : List (String × List String)) (st : DatasetState) (source : String) :
    ((get_custom_db_ds cfg fsys manifests st source true).1
        = Except.ok (noAugPolicy cfg (scanSorted fsys (source ++ "/"))))
    ∧ (manifests.lookup source = none →
        (get_custom_db_ds cfg fsys manifests st source false).1
          = Except.error (PyError.fileNotFoundError source))
    ∧ (∀ lines, manifests.lookup source = some lines →
        (get_custom_db_ds cfg fsys manifests st source false).1
          = Except.ok (noAugPolicy cfg (strSort lines))) := by
  refine ⟨?_, ?_, ?_⟩
  · rw [get_custom_db_ds_dir cfg fsys manifests st source]
  · intro hm
    rw [get_custom_db_ds_missing cfg fsys manifests st source hm]
  · intro lines hm
    rw [get_custom_db_ds_manifest cfg fsys manifests st source lines hm]

/-- C6 witness: the amended statement applied to a missing manifest file. -/
theorem C6_witness :
    (get_custom_db_ds baseCfg demoFs [] emptyState "list.txt" false).1
      = Except.error (PyError.fileNotFoundError "list.txt") :=
  (C6_custom_source_errors baseCfg demoFs [] emptyState "list.txt").2.1 rfl

/-- C7: `get_val_ds(max_song)` returns the sorted validation pool truncated
to `min(max_song, pool size)`: the list is exactly the `max_song`-prefix of
the sorted pool, its length is `min max_song (pool length)`, it stays
sorted, and a cap at or above the pool size returns the whole pool (the
result is never padded, and a large cap is not an error). -/
theorem C7_val_truncation (cfg : Config) (fsys : List String) (st : DatasetState)
    (max_song : Nat) :
    (get_val_ds cfg fsys st max_song).1.fns_source_event_list
        = (scanSorted fsys (cfg.source_root_dir ++ "val-query-db-500-30s/")).take max_song
    ∧ (get_val_ds cfg fsys st max_song).1.fns_source_event_list.length
        = min max_song (scanSorted fsys (cfg.source_root_dir ++ "val-query-db-500-30s/")).length
    ∧ List.Sorted strLe (get_val_ds cfg fsys st max_song).1.fns_source_event_list
    ∧ ((scanSorted fsys (cfg.source_root_dir ++ "val-query-db-500-30s/")).length ≤ max_song →
        (get_val_ds cfg fsys st max_song).1.fns_source_event_list
          = scanSorted fsys (cfg.source_root_dir ++ "val-query-db-500-30s/")) := by
  refine ⟨rfl, ?_, ?_, ?_⟩
  · exact List.length_take ..
  · exact List.Pairwise.take (scanSorted_sorted fsys _)
  · intro hle
    exact List.take_of_length_le hle

/-- C7 witness: a cap above the pool size returns the entire pool. -/
theorem C7_witness :
    (get_val_ds baseCfg demoFs emptyState 500).1.fns_source_event_list
      = scanSorted demoFs "src/val-query-db-500-30s/" :=
  (C7_val_truncation baseCfg demoFs emptyState 500).2.2.2 (by decide)

/-- C8 counterexample: `baseCfg` disables the test-speech augmentation
toggle, yet constructing the selector scans the speech root's `test/`
subdirectory (the unguarded scan of line 130). -/
theorem C8_counterexample :
    baseCfg.ts_use_speech_aug = false
    ∧ (ScanKey.speechTest, "sp/test/") ∈ augScans baseCfg :=
  ⟨rfl, by decide⟩

theorem augScans_key_enabled (cfg : Config) (k : ScanKey) (pth : String)
    (h : (k, pth) ∈ augScans cfg) : keyEnabled cfg k = true :=
  (List.mem_filter.mp h).2

/-- C8 (amended): eight of the nine augmentation scans are guarded by their
toggle — a disabled toggle means that call site performs no scan — but the
test-speech subdirectory of the speech root is scanned unconditionally at
construction, even when the test-speech toggle is disabled. -/
theorem C8_guarded_scans (cfg : Config) :
    (cfg.tr_use_bg_aug = false → ∀ pth, (ScanKey.bgTr, pth) ∉ augScans cfg)
    ∧ (cfg.ts_use_bg_aug = false → ∀ pth, (ScanKey.bgTs, pth) ∉ augScans cfg)
    ∧ (cfg.val_use_bg_aug = false → ∀ pth, (ScanKey.bgVal, pth) ∉ augScans cfg)
    ∧ (cfg.tr_use_ir_aug = false → ∀ pth, (ScanKey.irTr, pth) ∉ augScans cfg)
    ∧ (cfg.ts_use_ir_aug = false → ∀ pth, (ScanKey.irTs, pth) ∉ augScans cfg)
    ∧ (cfg.val_use_ir_aug = false → ∀ pth, (ScanKey.irVal, pth) ∉ augScans cfg)
    ∧ (cfg.tr_use_speech_aug = false → ∀ pth, (ScanKey.speechTrain, pth) ∉ augScans cfg)
    ∧ (cfg.val_use_speech_aug = false → ∀ pth, (ScanKey.speechDev, pth) ∉ augScans cfg)
    ∧ (ScanKey.speechTest, cfg.speech_root_dir ++ "test/") ∈ augScans cfg := by
  refine ⟨?_, ?_, ?_, ?_, ?_, ?_, ?_, ?_, ?_⟩
  · intro h pth hmem
    have hk := augScans_key_enabled cfg ScanKey.bgTr pth hmem
    simp only [keyEnabled] at hk
    rw [h] at hk
    exact Bool.noConfusion hk
  · intro h pth hmem
    have hk := augScans_key_enabled cfg ScanKey.bgTs pth hmem
    simp only [keyEnabled] at hk
    rw [h] at hk
    exact Bool.noConfusion hk
  · intro h pth hmem
    have hk := augScans_key_enabled cfg ScanKey.bgVal pth hmem
    simp only [keyEnabled] at hk
    rw [h] at hk
    exact Bool.noConfusion hk
  · intro h pth hmem
    have hk := augScans_key_enabled cfg ScanKey.irTr pth hmem
    simp only [keyEnabled] at hk
    rw [h] at hk
    exact Bool.noConfusion hk
  · intro h pth hmem
    have hk := augScans_key_enabled cfg ScanKey.irTs pth hmem
    simp only [keyEnabled] at hk
    rw [h] at hk
    exact Bool.noConfusion hk
  · intro h pth hmem
    have hk := augScans_key_enabled cfg ScanKey.irVal pth hmem
    simp only [keyEnabled] at hk
    rw [h] at hk
    exact Bool.noConfusion hk
  · intro h pth hmem
    have hk := augScans_key_enabled cfg ScanKey.speechTrain pth hmem
    simp only [keyEnabled] at hk
    rw [h] at hk
    exact Bool.noConfusion hk
  · intro h pth hmem
    have hk := augScans_key_enabled cfg ScanKey.speechDev pth hmem
    simp only [keyEnabled] at hk
    rw [h] at hk
    exact Bool.noConfusion hk
  · exact List.mem_filter.mpr ⟨by simp [scanSites], rfl⟩

/-- C8 witness: the amended statement applied at a configuration with the
train background toggle disabled. -/
theorem C8_witness :
    cfgNoBgAug.tr_use_bg_aug = false
    ∧ (ScanKey.bgTr, "bg/tr/") ∉ augScans cfgNoBgAug :=
  ⟨rfl, (C8_guarded_scans cfgNoBgAug).1 rfl "bg/tr/"⟩

/-- C9: for a fixed configuration, filesystem and arguments, the primary
file lists of the policies returned by every resolver do not depend on the
selector's mutable state — so two calls of the same resolver against an
unchanged filesystem return identical file lists — and every returned file
list is sorted ascending lexicographically by full path. -/
theorem C9_sorted_and_deterministic (cfg : Config) (fsys : List String)
    (st st' : DatasetState) (p m : Nat) (manifests : List (String × List String))
    (source : String) (isdir : Bool) (datasel : Option String) :
    ((get_train_ds cfg fsys st p).1.map (fun ds => ds.fns_source_event_list)
        = (get_train_ds cfg fsys st' p).1.map (fun ds => ds.fns_source_event_list))
    ∧ (∀ ds, (get_train_ds cfg fsys st p).1 = Except.ok ds →
        List.Sorted strLe ds.fns_source_event_list
        ∧ ∀ l, ds.fns_mix_event_list = some l → List.Sorted strLe l)
    ∧ ((get_val_ds cfg fsys st m).1.fns_source_event_list
        = (get_val_ds cfg fsys st' m).1.fns_source_event_list)
    ∧ List.Sorted strLe (get_val_ds cfg fsys st m).1.fns_source_event_list
    ∧ ((get_test_dummy_db_ds cfg fsys st).1.map (fun ds => ds.fns_source_event_list)
        = (get_test_dummy_db_ds cfg fsys st').1.map (fun ds => ds.fns_source_event_list))
    ∧ (∀ ds, (get_test_dummy_db_ds cfg fsys st).1 = Except.ok ds →
        List.Sorted strLe ds.fns_source_event_list)
    ∧ ((get_test_query_db_ds cfg fsys st datasel).1.map (fun pr =>
          (pr.1.fns_source_event_list, pr.2.fns_source_event_list))
        = (get_test_query_db_ds cfg fsys st' datasel).1.map (fun pr =>
          (pr.1.fns_source_event_list, pr.2.fns_source_event_list)))
    ∧ (∀ q db, (get_test_query_db_ds cfg fsys st datasel).1 = Except.ok (q, db) →
        List.Sorted strLe q.fns_source_event_list
        ∧ List.Sorted strLe db.fns_source_event_list)
    ∧ ((get_custom_db_ds cfg fsys manifests st source isdir).1
        = (get_custom_db_ds cfg fsys manifests st' source isdir).1)
    ∧ (∀ ds, (get_custom_db_ds cfg fsys manifests st source isdir).1 = Except.ok ds →
        List.Sorted strLe ds.fns_source_event_list) := by
  refine ⟨?_, ?_, rfl, ?_, ?_, ?_, ?_, ?_, ?_, ?_⟩
  · by_cases htag : cfg.datasel_train = "10k_icassp" ∨ cfg.datasel_train = "audible"
    · rw [get_train_ds_ok cfg fsys st p htag, get_train_ds_ok cfg fsys st' p htag]
      rfl
    · rw [not_or] at htag
      rw [get_train_ds_err cfg fsys st p htag.1 htag.2,
        get_train_ds_err cfg fsys st' p htag.1 htag.2]
  · intro ds h
    by_cases htag : cfg.datasel_train = "10k_icassp" ∨ cfg.datasel_train = "audible"
    · rw [get_train_ds_ok cfg fsys st p htag] at h
      dsimp only at h
      injection h with h'
      subst h'
      refine ⟨scanSorted_sorted fsys _, ?_⟩
      intro l hl
      injection hl with hl'
      subst hl'
      exact scanSorted_sorted fsys _
    · rw [not_or] at htag
      rw [get_train_ds_err cfg fsys st p htag.1 htag.2] at h
      simp at h
  · exact List.Pairwise.take (scanSorted_sorted fsys _)
  · by_cases h12 : cfg.datasel_test_dummy_db = "10k_full" ∨ cfg.datasel_test_dummy_db = "10k_30s"
    · rw [get_test_dummy_db_ds_take cfg fsys st h12, get_test_dummy_db_ds_take cfg fsys st' h12]
    · rw [not_or] at h12
      by_cases hfull : cfg.datasel_test_dummy_db = "100k_full_icassp"
      · rw [get_test_dummy_db_ds_full cfg fsys st hfull,
          get_test_dummy_db_ds_full cfg fsys st' hfull]
      · by_cases hnum : pyIsNumeric cfg.datasel_test_dummy_db = true
        · rw [get_test_dummy_db_ds_numeric cfg fsys st h12.1 h12.2 hfull hnum,
            get_test_dummy_db_ds_numeric cfg fsys st' h12.1 h12.2 hfull hnum]
        · rw [get_test_dummy_db_ds_err cfg fsys st h12.1 h12.2 hfull (by simpa using hnum),
            get_test_dummy_db_ds_err cfg fsys st' h12.1 h12.2 hfull (by simpa using hnum)]
  · intro ds h
    by_cases h12 : cfg.datasel_test_dummy_db = "10k_full" ∨ cfg.datasel_test_dummy_db = "10k_30s"
    · rw [get_test_dummy_db_ds_take cfg fsys st h12] at h
      dsimp only at h
      injection h with h'
      subst h'
      exact List.Pairwise.take (scanSorted_sorted fsys _)
    · rw [not_or] at h12
      by_cases hfull : cfg.datasel_test_dummy_db = "100k_full_icassp"
      · rw [get_test_dummy_db_ds_full cfg fsys st hfull] at h
        dsimp only at h
        injection h with h'
        subst h'
        exact scanSorted_sorted fsys _
      · by_cases hnum : pyIsNumeric cfg.datasel_test_dummy_db = true
        · rw [get_test_dummy_db_ds_numeric cfg fsys st h12.1 h12.2 hfull hnum] at h
          simp at h
        · rw [get_test_dummy_db_ds_err cfg fsys st h12.1 h12.2 hfull
            (by simpa using hnum)] at h
          simp at h
  · by_cases htr : (datasel.map (fun d => !d.data.isEmpty)).getD false = true
    · unfold get_test_query_db_ds
      rw [if_pos htr, if_pos htr]
    · unfold get_test_query_db_ds
      rw [if_neg htr, if_neg htr]
      by_cases hic : cfg.datasel_test_query_db = "unseen_icassp"
      · rw [if_pos hic, if_pos hic]
      · rw [if_neg hic, if_neg hic]
        by_cases hsyn : cfg.datasel_test_query_db = "unseen_syn"
        · rw [if_pos hsyn, if_pos hsyn]
          rfl
        · rw [if_neg hsyn, if_neg hsyn]
  · intro q db h
    by_cases htr : (datasel.map (fun d => !d.data.isEmpty)).getD false = true
    · unfold get_test_query_db_ds at h
      rw [if_pos htr] at h
      simp at h
    · unfold get_test_query_db_ds at h
      rw [if_neg htr] at h
      by_cases hic : cfg.datasel_test_query_db = "unseen_icassp"
      · rw [if_pos hic] at h
        dsimp only at h
        injection h with h'
        injection h' with hq hdb
        subst hq
        subst hdb
        exact ⟨scanSorted_sorted fsys _, scanSorted_sorted fsys _⟩
      · rw [if_neg hic] at h
        by_cases hsyn : cfg.datasel_test_query_db = "unseen_syn"
        · rw [if_pos hsyn] at h
          dsimp only at h
          injection h with h'
          injection h' with hq hdb
          subst hq
          subst hdb
          exact ⟨scanSorted_sorted fsys _, scanSorted_sorted fsys _⟩
        · rw [if_neg hsyn] at h
          simp at h
  · cases isdir with
    | true =>
      rw [get_custom_db_ds_dir cfg fsys manifests st source,
        get_custom_db_ds_dir cfg fsys manifests st' source]
    | false =>
      cases hm : manifests.lookup source with
      | none =>
        rw [get_custom_db_ds_missing cfg fsys manifests st source hm,
          get_custom_db_ds_missing cfg fsys manifests st' source hm]
      | some lines =>
        rw [get_custom_db_ds_manifest cfg fsys manifests st source lines hm,
          get_custom_db_ds_manifest cfg fsys manifests st' source lines hm]
  · intro ds h
    cases isdir with
    | true =>
      rw [get_custom_db_ds_dir cfg fsys manifests st source] at h
      dsimp only at h
      injection h with h'
      subst h'
      exact scanSorted_sorted fsys _
    | false =>
      cases hm : manifests.lookup source with
      | none =>
        rw [get_custom_db_ds_missing cfg fsys manifests st source hm] at h
        simp at h
      | some lines =>
        rw [get_custom_db_ds_manifest cfg fsys manifests st source lines hm] at h
        dsimp only at h
        injection h with h'
        subst h'
        exact strSort_sorted lines

/-- C9 witness: the theorem applied at a concrete configuration (custom
resolver on a directory with no `.wav` files). -/
theorem C9_witness :
    List.Sorted strLe (noAugPolicy baseCfg []).fns_source_event_list :=
  (C9_sorted_and_deterministic baseCfg demoFs emptyState emptyState 0 0 [] "cust"
      true none).2.2.2.2.2.2.2.2.2 (noAugPolicy baseCfg []) (by decide)

/-- C10 counterexample: passing the truthy `datasel` argument
`"unseen_icassp"` makes `get_test_query_db_ds` raise `AttributeError`
(line 267 reads the never-assigned attribute `self.datasel`), while the same
call without the argument succeeds — the argument is not ignored. -/
theorem C10_counterexample :
    (get_test_query_db_ds baseCfg demoFs emptyState (some "unseen_icassp")).1
        = Except.error (PyError.attributeError "datasel")
    ∧ (get_test_query_db_ds baseCfg demoFs emptyState none).1.map (fun _ => true)
        = Except.ok true :=
  ⟨by decide, by decide⟩

/-- C10 (amended): a falsy `datasel` argument (`None` or the empty string)
leaves the result and the selector state identical to the omitted-argument
call; a truthy `datasel` makes the call raise `AttributeError` before any
resolution, with the selector state unchanged — it never returns a policy
pair. -/
theorem C10_datasel_argument (cfg : Config) (fsys : List String) (st : DatasetState) :
    get_test_query_db_ds cfg fsys st (some "") = get_test_query_db_ds cfg fsys st none
    ∧ ∀ d : String, d.data.isEmpty = false →
        get_test_query_db_ds cfg fsys st (some d)
          = (Except.error (PyError.attributeError "datasel"), st) := by
  constructor
  · rfl
  · intro d hd
    exact get_test_query_db_ds_truthy cfg fsys st d hd

/-- C10 witness: the amended statement applied at a concrete truthy
argument. -/
theorem C10_witness :
    get_test_query_db_ds baseCfg demoFs emptyState (some "unseen_syn")
      = (Except.error (PyError.attributeError "datasel"), emptyState) :=
  (C10_datasel_argument baseCfg demoFs emptyState).2 "unseen_syn" rfl

end NeuralAudioFP
